import Mathlib

/-!
# Verification of the ECG waveform renderer (`src/chart.js`, `scripts/generate-daily-ecg.js`)

A shallow embedding of the waveform-synthesis core of the repository:
the signal parameter mapper (`computeParams`), the heartbeat signal
generator (`heartbeatPattern`), the point-buffer operations
(`ensureFilled`, push/shift advance), the render-state mutations
(`setDatasets`, `resize`), the per-track amplitude scaling of `render`,
and the GIF recording loop of `exportECGAsGIF`.

JS numbers are modelled as `ℚ` (exact arithmetic idealizing IEEE doubles);
`Math.random()` draws are passed explicitly as a parameter `r`.
JS `%` on nonnegative dividends with positive divisors is `jsMod`.
A JS division that is non-finite (`0/0 = NaN`, `x/0 = ±Infinity`) is
modelled by `jsDiv` returning `none`.
-/

namespace ECG

/-- JS `a % b` (fmod). For `a ≥ 0` and `b > 0` — the only regime the
renderer uses, as ticks start at 0 and only grow — this equals
`a - b * ⌊a / b⌋`, which is the definition adopted here. -/
def jsMod (a b : ℚ) : ℚ := a - b * ⌊a / b⌋

/-- JS division, tracking non-finite results: `a / 0` is `NaN` or
`±Infinity` in JS, modelled as `none`. -/
def jsDiv (a b : ℚ) : Option ℚ := if b = 0 then none else some (a / b)

-- ======= Tunable ECG constants (src/chart.js lines 9-24) =======
def GRID_TARGET_COLUMNS : ℚ := 40
def AMP_BASE : ℚ := 50
def MAX_INTENSITY : ℚ := 3
def INTENSITY_PER_AVG : ℚ := 0.5
def SPEED_BASE : ℚ := 400
def SPEED_SLOPE : ℚ := 10
def MIN_SPEED : ℚ := 80
def GLOW_RADIUS : ℚ := 6
def RIGHT_SAFE_PAD : ℚ := GLOW_RADIUS + 4
def SCAN_SPEED_PX_PER_FRAME : ℤ := 3

/-- `avgOf` (src/chart.js lines 45-47):
`(arr && arr.length) ? arr.reduce((a, b) => a + b, 0) / arr.length : 0`. -/
def avgOf (arr : List ℚ) : ℚ :=
  if arr.length ≠ 0 then arr.sum / arr.length else 0

/-- Result record of `computeParams` (src/chart.js line 54). -/
structure Params where
  intensity : ℚ
  speed : ℚ
  avg : ℚ
  deriving DecidableEq, Repr

/-- `computeParams` (src/chart.js lines 50-55). -/
def computeParams (series : List ℚ) : Params :=
  let avg := avgOf series
  { intensity := min (avg * INTENSITY_PER_AVG) MAX_INTENSITY
    speed := max MIN_SPEED (SPEED_BASE - avg * SPEED_SLOPE)
    avg := avg }

-- QRS spike-window constants of `heartbeatPattern` (src/chart.js lines 65-68),
-- hoisted to top level so theorems can name the window.
def QRS_CENTER : ℚ := 0.82
def QRS_WIDTH : ℚ := 0.06
def QRS_LEFT : ℚ := QRS_CENTER - QRS_WIDTH * 0.5
def QRS_RIGHT : ℚ := QRS_CENTER + QRS_WIDTH * 0.5
def Q_DEPTH : ℚ := -0.55
def R_HEIGHT : ℚ := 1.6
def S_DEPTH : ℚ := -0.45

/-- The in-period phase `(t % speed) / speed` of `heartbeatPattern`
(src/chart.js line 62). -/
def hbPhase (t speed : ℚ) : ℚ := jsMod t speed / speed

/-- `heartbeatPattern(t, intensity, speed)` (src/chart.js lines 57-98).
`r` is the `Math.random()` draw used by the non-spike (noise) branch. -/
def heartbeatPattern (t intensity speed r : ℚ) : ℚ :=
  let scale := AMP_BASE * intensity
  let phase := hbPhase t speed
  if QRS_LEFT ≤ phase ∧ phase ≤ QRS_RIGHT then
    let half := (QRS_LEFT + QRS_RIGHT) / 2
    let dist := |phase - half| / (QRS_WIDTH * 0.5)
    let peak := 1 - dist
    if phase < half then
      (Q_DEPTH * (1 - peak) + R_HEIGHT * peak) * scale
    else
      (S_DEPTH * (1 - peak) + R_HEIGHT * peak) * scale
  else
    (r - 0.5) * 2 * (0.05 * scale)

/-- Status string selection of `drawDiagnosesOnCanvas`
(src/chart.js lines 128-131). -/
def statusOf (avg : ℚ) : String :=
  if avg = 0 then "💀 No activity"
  else if avg < 1 then "⚠️ Low"
  else if avg < 3 then "💚 Healthy"
  else "🔥 Monster"

/-- `ensureFilled(points, widthNeeded, baselineY)` (src/chart.js lines
184-189): left-pad a short buffer with the baseline, drop the oldest
entries of a long one. -/
def ensureFilled (points : List ℚ) (widthNeeded : ℕ) (baselineY : ℚ) : List ℚ :=
  if points.length < widthNeeded then
    List.replicate (widthNeeded - points.length) baselineY ++ points
  else if widthNeeded < points.length then
    points.drop (points.length - widthNeeded)
  else points

/-- The buffer advance in `render` (src/chart.js lines 215-216):
`points.push(newValue); points.shift()`. -/
def advance (points : List ℚ) (newValue : ℚ) : List ℚ :=
  (points ++ [newValue]).drop 1

/-- `plotW` of `render` (src/chart.js line 193):
`Math.max(60, width - LEFT_PAD - RIGHT_PAD)` with `LEFT_PAD = 10` and
`RIGHT_PAD = RIGHT_SAFE_PAD = GLOW_RADIUS + 4 = 10`. -/
def plotWOf (width : ℤ) : ℤ := max 60 (width - 10 - 10)

/-- `trackH` of `render` (src/chart.js lines 177-179):
`Math.max(50, Math.floor(usableH / tracks))` with
`usableH = height - TOP_PAD - BOTTOM_PAD`. -/
def trackHOf (height tracks : ℤ) : ℤ :=
  max 50 ⌊(height - 10 - 10 : ℚ) / (tracks : ℚ)⌋

/-- `scaleFactor` of `render` (src/chart.js lines 203-205):
`min(1, maxAmplitude / expectedScale)` with
`expectedScale = AMP_BASE * Math.max(0.001, intensity)` and
`maxAmplitude = trackH * 0.45`. -/
def scaleFactorOf (trackH intensity : ℚ) : ℚ :=
  min 1 (trackH * 0.45 / (AMP_BASE * max 0.001 intensity))

/-- The vertical displacement of the sample appended by `render`
(src/chart.js line 214): `heartbeatPattern(xTick, intensity, speed) *
scaleFactor`; the plotted point is `trackMid + this`. -/
def trackDisplacement (trackH intensity speed t r : ℚ) : ℚ :=
  heartbeatPattern t intensity speed r * scaleFactorOf trackH intensity

/-- A dataset entry as handed to `setDatasets`; `data` is `none` when the
incoming `data` field is not an array. -/
structure RawDataset where
  username : String
  data : Option (List ℚ)
  color : Option String

/-- A normalized dataset entry as stored by `setDatasets`. -/
structure DatasetEntry where
  username : String
  data : List ℚ
  color : String

def DEFAULT_COLORS : List String :=
  ["lime", "cyan", "yellow", "magenta", "orange", "deepskyblue",
   "springgreen", "gold"]

/-- `pickColor` (src/chart.js lines 40-43). -/
def pickColor (i : ℕ) (override : Option String) : String :=
  match override with
  | some c => c
  | none => DEFAULT_COLORS.getD (i % DEFAULT_COLORS.length) ""

/-- The module-level mutable render state of src/chart.js
(lines 25-34): surface size, scan-beam offset, per-user point buffers
and the current datasets. -/
structure ChartState where
  width : ℤ
  height : ℤ
  mid : ℤ
  scanOffset : ℤ
  pointsPerUser : List (String × List ℚ)
  datasets : List DatasetEntry

/-- `setDatasets` (src/chart.js lines 304-311): normalizes the incoming
entries and clears `pointsPerUser`. It does not touch `scanOffset`. -/
def setDatasets (s : ChartState) (newDatasets : List RawDataset) : ChartState :=
  { s with
    datasets := newDatasets.enum.map (fun p =>
      { username := p.2.username
        data := p.2.data.getD []
        color := pickColor p.1 p.2.color })
    pointsPerUser := [] }

/-- The `resize` handler installed by `initECG` (src/chart.js lines
281-292): when the client size differs from the stored size, clamp and
store the new size, recompute `mid = Math.round(height / 2)` and clear
all point buffers; in every case zero `scanOffset`. -/
def resize (s : ChartState) (clientW clientH : ℤ) : ChartState :=
  let s1 :=
    if clientW ≠ s.width ∨ clientH ≠ s.height then
      { s with width := max 300 clientW
               height := max 200 clientH
               mid := (max 200 clientH + 1) / 2
               pointsPerUser := [] }
    else s
  { s1 with scanOffset := 0 }

/-- The buffer `render` hands to `ensureFilled` for a user
(src/chart.js lines 207-208): the stored buffer, or `[]` when the user
has none yet. -/
def bufferOf (s : ChartState) (username : String) : List ℚ :=
  (s.pointsPerUser.lookup username).getD []

/-- `totalFrames` at recording start, the same expression in
`exportECGAsGIF` (src/chart.js line 381) and `exportECGAsGIFForNode`
(line 454): `Math.max(1, Math.floor(seconds * fps))`. -/
def exportTotalFrames (seconds fps : ℚ) : ℤ := max 1 ⌊seconds * fps⌋

/-- `frameDelayMs = 1000 / fps` (src/chart.js line 385). -/
def frameDelayMs (fps : ℚ) : ℚ := 1000 / fps

/-- Per-series headless average in `generateFrame`
(scripts/generate-daily-ecg.js line 163):
`d.data.reduce((a, b) => a + b, 0) / d.data.length` — there is no empty
guard, so an empty series divides 0 by 0, which is `NaN` in JS
(modelled as `none` by `jsDiv`). -/
def headlessAvg (data : List ℚ) : Option ℚ := jsDiv data.sum data.length

/-- Headless intensity/speed mapping in `generateFrame`
(scripts/generate-daily-ecg.js lines 163-165); JS `Math.min`/`Math.max`
propagate `NaN`, so a `NaN` average yields `NaN` parameters. -/
def headlessParams (data : List ℚ) : Option (ℚ × ℚ) :=
  (headlessAvg data).map (fun avg => (min (avg * 0.5) 3, max 80 (400 - avg * 10)))

/-- State of the render loop and recording loop during a GIF export:
the render loop's `xTick`, and the `step` closure's `captured`, `last`
and (implicit) list of frames already handed to the encoder, plus
whether `gif.render()` was invoked (finalization). -/
structure RecState where
  tick : ℤ
  captured : ℤ
  last : ℚ
  submitted : List ℤ
  finalized : Bool

/-- The phase test of the render loop's tick advance
(src/chart.js lines 265-266): `phase = (xTick % 200) / 200` and
`inQRS = phase >= 0.82 - 0.03 && phase <= 0.82 + 0.03`. -/
def renderPhase (tick : ℤ) : ℚ := ((tick % 200 : ℤ) : ℚ) / 200

/-- The per-frame tick advance of `render` (src/chart.js line 267):
`xTick += inQRS ? 2 : 1`. -/
def renderTickStep (tick : ℤ) : ℤ :=
  if (0.82 - 0.03 : ℚ) ≤ renderPhase tick ∧ renderPhase tick ≤ 0.82 + 0.03
  then 2 else 1

/-- One animation frame during a GIF export. Both `render` and `step`
are animation-frame callbacks, re-registered in registration order, so
per frame: `render` draws the waveform at the current `xTick` and then
advances it (src/chart.js line 267); `step` (lines 388-403) first
finalizes the encoder once `captured >= totalFrames` (and stops
re-registering itself, so the state no longer changes), otherwise, when
the throttle boundary `now - last >= frameDelayMs` is reached, submits
the frame drawn at the current tick to the encoder. -/
def animFrame (total : ℤ) (delay : ℚ) (s : RecState) (now : ℚ) : RecState :=
  if s.finalized then s
  else
    let tickDrawn := s.tick
    let tick' := s.tick + renderTickStep s.tick
    if total ≤ s.captured then
      { s with tick := tick', finalized := true }
    else if delay ≤ now - s.last then
      { tick := tick', captured := s.captured + 1, last := now,
        submitted := s.submitted ++ [tickDrawn], finalized := false }
    else
      { s with tick := tick' }

/-- A recording run over a sequence of animation-frame timestamps. -/
def runRecording (total : ℤ) (delay : ℚ) (ts : List ℚ) (s : RecState) : RecState :=
  ts.foldl (animFrame total delay) s

/-- The recording state right after `exportECGAsGIF` sets up: no frame
captured, `last = performance.now()` (src/chart.js lines 382-386). -/
def initRecState (t0 : ℤ) (l0 : ℚ) : RecState :=
  { tick := t0, captured := 0, last := l0, submitted := [], finalized := false }

/-- The invariant maintained by every animation frame of a recording
run: the submitted-frame count matches `captured`, never exceeds the
frame budget and equals it once finalized, and the submitted ticks are
strictly increasing and below the current tick. -/
def RecInv (total : ℤ) (s : RecState) : Prop :=
  (s.submitted.length : ℤ) = s.captured ∧
  s.captured ≤ total ∧
  (s.finalized = true → s.captured = total) ∧
  s.submitted.Sorted (· < ·) ∧
  ∀ x ∈ s.submitted, x < s.tick

/-- `exportECGAsGIF` (src/chart.js lines 326-406): the guard
`if (!canvas || !window.GIF) return reject(new Error(...))` runs before
any capture is scheduled; otherwise the throttled capture loop runs. -/
def exportECGAsGIF_run (canvasOk gifOk : Bool) (seconds fps : ℚ)
    (ts : List ℚ) (t0 : ℤ) (l0 : ℚ) : Except String RecState :=
  if !canvasOk || !gifOk then
    .error "GIF exporter not available. Make sure gif.js is loaded."
  else
    .ok (runRecording (exportTotalFrames seconds fps) (frameDelayMs fps) ts
          (initRecState t0 l0))

end ECG

namespace ECG

/-- C7: the diagnostic-overlay status label is determined by the series
average: 0 ↦ no-activity, (0,1) ↦ low, [1,3) ↦ healthy, [3,∞) ↦ high
(monster tier). -/
theorem statusOf_classification (a : ℚ) :
    (a = 0 → statusOf a = "💀 No activity") ∧
    (0 < a → a < 1 → statusOf a = "⚠️ Low") ∧
    (1 ≤ a → a < 3 → statusOf a = "💚 Healthy") ∧
    (3 ≤ a → statusOf a = "🔥 Monster") := by
  refine ⟨fun h => ?_, fun h1 h2 => ?_, fun h1 h2 => ?_, fun h => ?_⟩
  · simp [statusOf, h]
  · simp only [statusOf]
    rw [if_neg (by linarith), if_pos h2]
  · simp only [statusOf]
    rw [if_neg (by linarith), if_neg (by linarith), if_pos h2]
  · simp only [statusOf]
    rw [if_neg (by linarith), if_neg (by linarith), if_neg (by linarith)]

/-- C7 witness: averages 0, 1/2, 2 and 4 map to the four labels. -/
theorem statusOf_classification_witness :
    statusOf 0 = "💀 No activity" ∧ statusOf (1/2) = "⚠️ Low" ∧
    statusOf 2 = "💚 Healthy" ∧ statusOf 4 = "🔥 Monster" :=
  ⟨(statusOf_classification 0).1 rfl,
   (statusOf_classification (1/2)).2.1 (by norm_num) (by norm_num),
   (statusOf_classification 2).2.2.1 (by norm_num) (by norm_num),
   (statusOf_classification 4).2.2.2 (by norm_num)⟩

/-- C5 counterexample: after a dataset replacement the buffer handed to
the very next `ensureFilled` call in `render` is empty, while the plot
width of the minimum 300-pixel surface is 280 — so the buffer length
does not equal `plotWidth` before every `ensureFilled` call. -/
theorem buffer_short_before_ensureFilled :
    ((bufferOf
        (setDatasets
          { width := 300, height := 200, mid := 100, scanOffset := 0,
            pointsPerUser := [("a", [0, 1, 2])], datasets := [] }
          [{ username := "a", data := some [6], color := none }]) "a").length : ℤ)
      ≠ plotWOf 300 := by
  decide

/-- C5 (amended): `ensureFilled` always returns a buffer of length
exactly `widthNeeded` (padding a short buffer with the baseline,
dropping the oldest entries of a long one), the push/shift advance
preserves length, hence after `ensureFilled` the advance keeps the
buffer at exactly the plot width. -/
theorem buffer_length_invariant (points l : List ℚ) (w : ℕ) (fill v : ℚ) :
    (ensureFilled points w fill).length = w ∧
    (advance l v).length = l.length ∧
    (advance (ensureFilled points w fill) v).length = w := by
  have h1 : (ensureFilled points w fill).length = w := by
    unfold ensureFilled
    split_ifs with hlt hgt
    · simp [Nat.sub_add_cancel (Nat.le_of_lt hlt)]
    · simp [Nat.sub_sub_self (Nat.le_of_lt hgt)]
    · omega
  have h2 : ∀ m : List ℚ, (advance m v).length = m.length := by
    intro m
    simp [advance]
  exact ⟨h1, h2 l, by rw [h2, h1]⟩

/-- C4 counterexample: `setDatasets` clears the point buffers but leaves
`scanOffset` unchanged — here a dataset replacement on a state with
`scanOffset = 3` leaves it at 3 instead of zeroing it. -/
theorem setDatasets_keeps_scanOffset :
    (setDatasets
      { width := 300, height := 200, mid := 100, scanOffset := 3,
        pointsPerUser := [("a", [1, 2])], datasets := [] }
      [{ username := "a", data := some [1, 2], color := none }]).scanOffset
      ≠ 0 := by
  decide

/-- C4 (amended): a dataset replacement clears all point buffers but
keeps `scanOffset`; the resize handler always zeroes `scanOffset` and
clears the buffers exactly when the client dimensions differ from the
stored surface dimensions. -/
theorem reset_behavior (s : ChartState) (ds : List RawDataset) (cw ch : ℤ) :
    (setDatasets s ds).pointsPerUser = [] ∧
    (setDatasets s ds).scanOffset = s.scanOffset ∧
    (resize s cw ch).scanOffset = 0 ∧
    (cw ≠ s.width ∨ ch ≠ s.height → (resize s cw ch).pointsPerUser = []) := by
  refine ⟨rfl, rfl, rfl, fun h => ?_⟩
  simp only [resize]
  rw [if_pos h]

/-- C4 witness: the reset behavior at a concrete state, dataset and
resize event with changed dimensions. -/
theorem reset_behavior_witness :
    ((400 : ℤ) ≠ 300 ∨ (250 : ℤ) ≠ 200) ∧
    (setDatasets
      { width := 300, height := 200, mid := 100, scanOffset := 7,
        pointsPerUser := [("a", [1])], datasets := [] }
      []).pointsPerUser = [] ∧
    (resize
      { width := 300, height := 200, mid := 100, scanOffset := 7,
        pointsPerUser := [("a", [1])], datasets := [] } 400 250).scanOffset = 0 ∧
    (resize
      { width := 300, height := 200, mid := 100, scanOffset := 7,
        pointsPerUser := [("a", [1])], datasets := [] } 400 250).pointsPerUser
      = [] := by
  refine ⟨by decide, ?_, ?_, ?_⟩
  · exact (reset_behavior
      { width := 300, height := 200, mid := 100, scanOffset := 7,
        pointsPerUser := [("a", [1])], datasets := [] } [] 400 250).1
  · exact (reset_behavior
      { width := 300, height := 200, mid := 100, scanOffset := 7,
        pointsPerUser := [("a", [1])], datasets := [] } [] 400 250).2.2.1
  · exact (reset_behavior
      { width := 300, height := 200, mid := 100, scanOffset := 7,
        pointsPerUser := [("a", [1])], datasets := [] } [] 400 250).2.2.2
      (by decide)

/-- C10: `heartbeatPattern` is homogeneous in the intensity: with the
random draw held fixed, scaling the intensity by `k ≥ 0` scales the
displacement by `k`, and intensity 0 yields displacement exactly 0 at
every tick, in the spike window and the noise branch alike. -/
theorem heartbeatPattern_homogeneous (t i p r k : ℚ) (hk : 0 ≤ k) (hi : 0 ≤ i)
    (hp : 1 ≤ p) :
    heartbeatPattern t (k * i) p r = k * heartbeatPattern t i p r ∧
    heartbeatPattern t 0 p r = 0 := by
  constructor
  · simp only [heartbeatPattern]
    split_ifs <;> ring
  · simp only [heartbeatPattern]
    split_ifs <;> ring

/-- C10 witness: homogeneity at tick 0, period 200, intensity 1,
factor 2, draw 1/2. -/
theorem heartbeatPattern_homogeneous_witness :
    (0:ℚ) ≤ 2 ∧ (0:ℚ) ≤ 1 ∧ (1:ℚ) ≤ 200 ∧
    heartbeatPattern 0 (2 * 1) 200 (1/2) = 2 * heartbeatPattern 0 1 200 (1/2) ∧
    heartbeatPattern 0 0 200 (1/2) = 0 :=
  ⟨by norm_num, by norm_num, by norm_num,
   (heartbeatPattern_homogeneous 0 1 200 (1/2) 2 (by norm_num) (by norm_num)
     (by norm_num)).1,
   (heartbeatPattern_homogeneous 0 1 200 (1/2) 2 (by norm_num) (by norm_num)
     (by norm_num)).2⟩

/-- C6: outside the QRS spike window, the displacement is the jitter
`(r - 0.5) * 2 * (0.05 * scale)`, bounded in magnitude by
`0.1 * AMP_BASE * intensity` whenever the draw lies in [0, 1). -/
theorem heartbeatPattern_noise_bound (t i p r : ℚ) (hi : 0 ≤ i) (hr0 : 0 ≤ r)
    (hr1 : r < 1)
    (hout : ¬ (QRS_LEFT ≤ hbPhase t p ∧ hbPhase t p ≤ QRS_RIGHT)) :
    |heartbeatPattern t i p r| ≤ 0.1 * AMP_BASE * i := by
  simp only [heartbeatPattern]
  rw [if_neg hout]
  have hA : (AMP_BASE : ℚ) = 50 := by norm_num [AMP_BASE]
  rw [hA]
  rw [abs_le]
  constructor <;>
    nlinarith [mul_nonneg hi hr0, mul_nonneg hi (by linarith : (0:ℚ) ≤ 1 - r),
      mul_nonneg hi (by linarith : (0:ℚ) ≤ r + 1/2)]

/-- C6 witness: tick 0 with period 200 lies outside the spike window and
the jitter at intensity 1, draw 1/2 respects the bound. -/
theorem heartbeatPattern_noise_bound_witness :
    ¬ (QRS_LEFT ≤ hbPhase 0 200 ∧ hbPhase 0 200 ≤ QRS_RIGHT) ∧
    |heartbeatPattern 0 1 200 (1/2)| ≤ 0.1 * AMP_BASE * 1 :=
  ⟨by norm_num [hbPhase, jsMod, QRS_LEFT, QRS_RIGHT, QRS_CENTER, QRS_WIDTH],
   heartbeatPattern_noise_bound 0 1 200 (1/2) (by norm_num) (by norm_num)
     (by norm_num)
     (by norm_num [hbPhase, jsMod, QRS_LEFT, QRS_RIGHT, QRS_CENTER, QRS_WIDTH])⟩

/-- The generator's output is bounded in magnitude by
`R_HEIGHT * AMP_BASE * intensity` in every branch: the spike is a convex
blend of `Q_DEPTH`/`S_DEPTH` and `R_HEIGHT`, the jitter is far smaller. -/
theorem heartbeatPattern_abs_le (t i p r : ℚ) (hi : 0 ≤ i) (hr0 : 0 ≤ r)
    (hr1 : r ≤ 1) :
    |heartbeatPattern t i p r| ≤ R_HEIGHT * (AMP_BASE * i) := by
  have hA : (AMP_BASE : ℚ) = 50 := by norm_num [AMP_BASE]
  have hR : (R_HEIGHT : ℚ) = 8/5 := by norm_num [R_HEIGHT]
  have hhalf : (QRS_LEFT + QRS_RIGHT) / 2 = 41/50 := by
    norm_num [QRS_LEFT, QRS_RIGHT, QRS_CENTER, QRS_WIDTH]
  have hQw : QRS_WIDTH * (0.5 : ℚ) = 3/100 := by norm_num [QRS_WIDTH]
  have hQd : (Q_DEPTH : ℚ) = -(11/20) := by norm_num [Q_DEPTH]
  have hSd : (S_DEPTH : ℚ) = -(9/20) := by norm_num [S_DEPTH]
  simp only [heartbeatPattern]
  split_ifs with hin hlt
  · have h1 : (79/100 : ℚ) ≤ hbPhase t p := by
      have := hin.1
      rw [show QRS_LEFT = (79/100 : ℚ) by
        norm_num [QRS_LEFT, QRS_CENTER, QRS_WIDTH]] at this
      exact this
    have h2 : hbPhase t p ≤ (85/100 : ℚ) := by
      have := hin.2
      rw [show QRS_RIGHT = (85/100 : ℚ) by
        norm_num [QRS_RIGHT, QRS_CENTER, QRS_WIDTH]] at this
      exact this
    rw [hhalf, hQw, hQd, hR, hA]
    set D := |hbPhase t p - 41/50| with hDdef
    have hD0 : 0 ≤ D := abs_nonneg _
    have hD3 : D ≤ 3/100 := by
      rw [hDdef, abs_le]
      constructor <;> linarith
    rw [abs_le]
    constructor <;>
      nlinarith [mul_nonneg hD0 hi,
        mul_nonneg (by linarith : (0:ℚ) ≤ 3/100 - D) hi]
  · have h1 : (79/100 : ℚ) ≤ hbPhase t p := by
      have := hin.1
      rw [show QRS_LEFT = (79/100 : ℚ) by
        norm_num [QRS_LEFT, QRS_CENTER, QRS_WIDTH]] at this
      exact this
    have h2 : hbPhase t p ≤ (85/100 : ℚ) := by
      have := hin.2
      rw [show QRS_RIGHT = (85/100 : ℚ) by
        norm_num [QRS_RIGHT, QRS_CENTER, QRS_WIDTH]] at this
      exact this
    rw [hhalf, hQw, hSd, hR, hA]
    set D := |hbPhase t p - 41/50| with hDdef
    have hD0 : 0 ≤ D := abs_nonneg _
    have hD3 : D ≤ 3/100 := by
      rw [hDdef, abs_le]
      constructor <;> linarith
    rw [abs_le]
    constructor <;>
      nlinarith [mul_nonneg hD0 hi,
        mul_nonneg (by linarith : (0:ℚ) ≤ 3/100 - D) hi]
  · rw [hR, hA, abs_le]
    constructor <;>
      nlinarith [mul_nonneg hi hr0, mul_nonneg hi (by linarith : (0:ℚ) ≤ 1 - r),
        mul_nonneg hi (by linarith : (0:ℚ) ≤ r + 1/2)]

/-- C1 counterexample: for the dataset entry with values `[6]`
(average 6, intensity 3, period 340), track height 100 and tick 279 —
which falls in the QRS spike window — the plotted sample's displacement
from the track midline exceeds `0.45 × trackHeight = 45`: the amplitude
clamp normalizes the base scale, but the R-peak multiplier 1.6
overshoots it. -/
theorem trackDisplacement_exceeds_045 :
    (0.45 : ℚ) * 100 <
      |trackDisplacement 100 (computeParams [6]).intensity
        (computeParams [6]).speed 279 (1/2)| := by
  have hpi : (computeParams [6]).intensity = 3 := by
    norm_num [computeParams, avgOf, INTENSITY_PER_AVG, MAX_INTENSITY, min_def]
  have hps : (computeParams [6]).speed = 340 := by
    norm_num [computeParams, avgOf, SPEED_BASE, SPEED_SLOPE, MIN_SPEED, max_def]
  rw [hpi, hps]
  have h1 : hbPhase 279 340 = 279/340 := by norm_num [hbPhase, jsMod]
  have h2 : QRS_LEFT ≤ (279:ℚ)/340 ∧ (279:ℚ)/340 ≤ QRS_RIGHT := by
    norm_num [QRS_LEFT, QRS_RIGHT, QRS_CENTER, QRS_WIDTH]
  have h3 : ¬ ((279:ℚ)/340 < (QRS_LEFT + QRS_RIGHT)/2) := by
    norm_num [QRS_LEFT, QRS_RIGHT, QRS_CENTER, QRS_WIDTH]
  have h5 : (279:ℚ)/340 - (QRS_LEFT + QRS_RIGHT)/2 = 1/1700 := by
    norm_num [QRS_LEFT, QRS_RIGHT, QRS_CENTER, QRS_WIDTH]
  have h4 : heartbeatPattern 279 3 340 (1/2) = 7955/34 := by
    simp only [heartbeatPattern, h1]
    rw [if_pos h2, if_neg h3, h5, abs_of_pos (by norm_num : (0:ℚ) < 1/1700)]
    norm_num [QRS_WIDTH, S_DEPTH, R_HEIGHT, AMP_BASE]
  have hsf : scaleFactorOf 100 3 = 3/10 := by
    norm_num [scaleFactorOf, AMP_BASE, min_def, max_def]
  simp only [trackDisplacement]
  rw [h4, hsf, show (7955:ℚ)/34 * (3/10) = 4773/68 by norm_num,
    abs_of_pos (by norm_num : (0:ℚ) < 4773/68)]
  norm_num

/-- C1 (amended): the amplitude scaling clamps the scaled base amplitude
`scale × scaleFactor` to at most `0.45 × trackHeight`, so the per-track
peak displacement never exceeds `R_HEIGHT × 0.45 × trackHeight`
(= `0.72 × trackHeight`) in magnitude, regardless of intensity. -/
theorem trackDisplacement_peak_bound (trackH i p t r : ℚ) (hH : 0 ≤ trackH)
    (hi : 0 ≤ i) (hp : 1 ≤ p) (hr0 : 0 ≤ r) (hr1 : r < 1) :
    |trackDisplacement trackH i p t r| ≤ R_HEIGHT * (0.45 * trackH) := by
  have hhb := heartbeatPattern_abs_le t i p r hi hr0 (le_of_lt hr1)
  have hA : (AMP_BASE : ℚ) = 50 := by norm_num [AMP_BASE]
  have hR : (R_HEIGHT : ℚ) = 8/5 := by norm_num [R_HEIGHT]
  have hmi : i ≤ max 0.001 i := le_max_right _ _
  have hm : (0.001 : ℚ) ≤ max 0.001 i := le_max_left _ _
  have hexp : (0:ℚ) < AMP_BASE * max 0.001 i := by rw [hA]; nlinarith
  unfold trackDisplacement scaleFactorOf
  set sf := min 1 (trackH * 0.45 / (AMP_BASE * max 0.001 i)) with hsf
  have hsf0 : 0 ≤ sf := by
    rw [hsf]
    exact le_min (by norm_num)
      (div_nonneg (by nlinarith) (le_of_lt hexp))
  have hsfle : sf ≤ trackH * 0.45 / (AMP_BASE * max 0.001 i) := min_le_right _ _
  have hkey : (AMP_BASE * max 0.001 i) * sf ≤ trackH * 0.45 := by
    have := (le_div_iff₀ hexp).mp hsfle
    linarith [this]
  rw [abs_mul, abs_of_nonneg hsf0]
  calc |heartbeatPattern t i p r| * sf
      ≤ (R_HEIGHT * (AMP_BASE * i)) * sf := mul_le_mul_of_nonneg_right hhb hsf0
    _ ≤ R_HEIGHT * ((AMP_BASE * max 0.001 i) * sf) := by
        rw [hR, hA]
        nlinarith [mul_nonneg (by linarith : (0:ℚ) ≤ max 0.001 i - i) hsf0]
    _ ≤ R_HEIGHT * (trackH * 0.45) := by rw [hR]; linarith
    _ = R_HEIGHT * (0.45 * trackH) := by ring

/-- C1 witness: the amended bound at track height 100, intensity 3,
period 340, tick 279, draw 1/2. -/
theorem trackDisplacement_peak_bound_witness :
    (0:ℚ) ≤ 100 ∧ (1:ℚ) ≤ 340 ∧
    |trackDisplacement 100 3 340 279 (1/2)| ≤ R_HEIGHT * (0.45 * 100) :=
  ⟨by norm_num, by norm_num,
   trackDisplacement_peak_bound 100 3 340 279 (1/2) (by norm_num) (by norm_num)
     (by norm_num) (by norm_num) (by norm_num)⟩

/-- C2 counterexample: with seconds = 5/2 and fps = 3 both export paths
compute `Math.max(1, Math.floor(seconds * fps)) = 7`, not
`ceil(seconds × fps) = 8`. -/
theorem exportTotalFrames_not_ceil :
    exportTotalFrames (5/2) 3 ≠ ⌈(5/2 : ℚ) * 3⌉ := by
  have h1 : ((5:ℚ)/2) * 3 = 15/2 := by norm_num
  have hc : ⌈(15/2 : ℚ)⌉ = 8 := by
    rw [Int.ceil_eq_iff]
    norm_num
  have hf : ⌊(15/2 : ℚ)⌋ = 7 := by
    rw [Int.floor_eq_iff]
    norm_num
  unfold exportTotalFrames
  rw [h1, hc, hf]
  norm_num [max_def]

/-- C2 (amended): at recording start both export paths compute
`totalFrames = max(1, floor(seconds × fps))`; this is always at least 1
and agrees with `ceil(seconds × fps)` whenever `seconds × fps` is an
integer (in particular for integer seconds and fps), but rounds
fractional products down, not up. -/
theorem exportTotalFrames_spec (s f : ℚ) (n : ℤ) (hs : 0 < s) (hf : 0 < f)
    (hn : s * f = (n : ℚ)) :
    1 ≤ exportTotalFrames s f ∧ exportTotalFrames s f = ⌈s * f⌉ := by
  refine ⟨le_max_left _ _, ?_⟩
  unfold exportTotalFrames
  rw [hn, Int.floor_intCast, Int.ceil_intCast]
  have hpos : (0:ℚ) < (n:ℚ) := by rw [← hn]; exact mul_pos hs hf
  have hn0 : 0 < n := by exact_mod_cast hpos
  exact max_eq_right (by omega)

/-- C2 witness: seconds 5, fps 12 give 60 frames, matching the ceiling. -/
theorem exportTotalFrames_spec_witness :
    (0:ℚ) < 5 ∧ (0:ℚ) < 12 ∧ (5:ℚ) * 12 = ((60:ℤ):ℚ) ∧
    1 ≤ exportTotalFrames 5 12 ∧ exportTotalFrames 5 12 = ⌈(5:ℚ) * 12⌉ :=
  ⟨by norm_num, by norm_num, by norm_num,
   (exportTotalFrames_spec 5 12 60 (by norm_num) (by norm_num) (by norm_num)).1,
   (exportTotalFrames_spec 5 12 60 (by norm_num) (by norm_num) (by norm_num)).2⟩

/-- The render loop's tick advance is always positive (1 or 2), so the
tick counter strictly increases every animation frame. -/
theorem renderTickStep_pos (tick : ℤ) : 0 < renderTickStep tick := by
  unfold renderTickStep
  split_ifs <;> norm_num

/-- One animation frame of a recording run preserves the recording
invariant. -/
theorem animFrame_inv (total : ℤ) (delay : ℚ) (now : ℚ) (s : RecState)
    (h : RecInv total s) : RecInv total (animFrame total delay s now) := by
  obtain ⟨hlen, hle, hfin, hsort, hlt⟩ := h
  have hstep := renderTickStep_pos s.tick
  simp only [animFrame]
  split_ifs with h1 h2 h3
  · exact ⟨hlen, hle, hfin, hsort, hlt⟩
  · refine ⟨hlen, hle, fun _ => le_antisymm hle h2, hsort, fun x hx => ?_⟩
    have := hlt x hx
    dsimp only
    omega
  · refine ⟨?_, ?_, ?_, ?_, ?_⟩
    · dsimp only
      simp only [List.length_append, List.length_singleton]
      push_cast
      omega
    · dsimp only
      omega
    · intro hf
      simp at hf
    · dsimp only
      exact List.pairwise_append.mpr
        ⟨hsort, List.sorted_singleton _,
         fun a ha b hb => by
          rw [List.mem_singleton] at hb
          subst hb
          exact hlt a ha⟩
    · intro x hx
      dsimp only at hx ⊢
      rcases List.mem_append.mp hx with hx | hx
      · have := hlt x hx
        omega
      · rw [List.mem_singleton] at hx
        subst hx
        omega
  · refine ⟨hlen, hle, fun hf => hfin hf, hsort, fun x hx => ?_⟩
    have := hlt x hx
    dsimp only
    omega

/-- A whole recording run preserves the recording invariant. -/
theorem runRecording_inv (total : ℤ) (delay : ℚ) (ts : List ℚ) (s : RecState)
    (h : RecInv total s) : RecInv total (runRecording total delay ts s) := by
  induction ts generalizing s with
  | nil => exact h
  | cons a l ih => exact ih (animFrame total delay s a) (animFrame_inv total delay a s h)

/-- C3: a recording run with seconds = 5 and fps = 10 that reaches
encoder finalization has submitted exactly 50 frames before finalizing,
at strictly increasing ticks, with no frame submitted twice. -/
theorem recording_50_frames (ts : List ℚ) (t0 : ℤ) (l0 : ℚ)
    (h : (runRecording (exportTotalFrames 5 10) (frameDelayMs 10) ts
          (initRecState t0 l0)).finalized = true) :
    (runRecording (exportTotalFrames 5 10) (frameDelayMs 10) ts
      (initRecState t0 l0)).submitted.length = 50 ∧
    (runRecording (exportTotalFrames 5 10) (frameDelayMs 10) ts
      (initRecState t0 l0)).submitted.Sorted (· < ·) ∧
    (runRecording (exportTotalFrames 5 10) (frameDelayMs 10) ts
      (initRecState t0 l0)).submitted.Nodup := by
  have h50 : exportTotalFrames 5 10 = 50 := by
    norm_num [exportTotalFrames, max_def]
  have hinit : RecInv (exportTotalFrames 5 10) (initRecState t0 l0) := by
    refine ⟨rfl, ?_, ?_, List.sorted_nil, ?_⟩
    · rw [h50]
      norm_num [initRecState]
    · intro hf
      simp [initRecState] at hf
    · intro x hx
      simp [initRecState] at hx
  obtain ⟨hlen, hle, hfin, hsort, hlt⟩ :=
    runRecording_inv (exportTotalFrames 5 10) (frameDelayMs 10) ts
      (initRecState t0 l0) hinit
  have hcap := hfin h
  refine ⟨?_, hsort, hsort.nodup⟩
  have hl : ((runRecording (exportTotalFrames 5 10) (frameDelayMs 10) ts
      (initRecState t0 l0)).submitted.length : ℤ) = 50 := by
    rw [hlen, hcap, h50]
  exact_mod_cast hl

/-- C9: requesting a GIF export while the canvas or the GIF encoder
dependency (`window.GIF`) is unavailable rejects immediately with the
distinct exporter-unavailable error; no recording run starts, so no
frame is captured or submitted. -/
theorem export_rejected_when_unavailable (canvasOk gifOk : Bool)
    (seconds fps : ℚ) (ts : List ℚ) (t0 : ℤ) (l0 : ℚ)
    (h : canvasOk = false ∨ gifOk = false) :
    exportECGAsGIF_run canvasOk gifOk seconds fps ts t0 l0 =
      .error "GIF exporter not available. Make sure gif.js is loaded." ∧
    ∀ s : RecState,
      exportECGAsGIF_run canvasOk gifOk seconds fps ts t0 l0 ≠ .ok s := by
  have hcond : (!canvasOk || !gifOk) = true := by
    rcases h with h | h <;> simp [h]
  exact ⟨by simp [exportECGAsGIF_run, hcond],
         fun s => by simp [exportECGAsGIF_run, hcond]⟩

/-- C9 witness: with the encoder present but the canvas missing, the
export is rejected with the exporter-unavailable error. -/
theorem export_rejected_when_unavailable_witness :
    ((false : Bool) = false ∨ (true : Bool) = false) ∧
    exportECGAsGIF_run false true 5 10 [] 0 0 =
      .error "GIF exporter not available. Make sure gif.js is loaded." :=
  ⟨Or.inl rfl,
   (export_rejected_when_unavailable false true 5 10 [] 0 0 (Or.inl rfl)).1⟩

/-- C8 counterexample: in the headless render path (`generateFrame`),
the average of an empty series is `0/0`, which is `NaN` in JS — not the
0 the interactive path's `avgOf` returns for an empty series. -/
theorem headlessAvg_empty_nan :
    headlessAvg [] = none ∧ avgOf [] = 0 := by
  constructor
  · simp [headlessAvg, jsDiv]
  · simp [avgOf]

/-- C8 (amended): the interactive mapping computes average = mean of
the values, intensity = min(average × 0.5, 3) and period =
max(80, 400 − average × 10), with the empty series yielding the flat
baseline (average 0, intensity 0, period 400) without error; the
headless `generateFrame` computes the same parameters for every
nonempty series, but on an empty series it divides by zero and yields
NaN parameters (its caller rejects empty data before rendering). -/
theorem computeParams_mapping (values : List ℚ) (h : values ≠ []) :
    (computeParams values).avg = values.sum / values.length ∧
    (computeParams values).intensity = min ((computeParams values).avg * 0.5) 3 ∧
    (computeParams values).speed = max 80 (400 - (computeParams values).avg * 10) ∧
    headlessParams values =
      some ((computeParams values).intensity, (computeParams values).speed) ∧
    (computeParams []).avg = 0 ∧
    (computeParams []).intensity = 0 ∧
    (computeParams []).speed = 400 := by
  have hlen : values.length ≠ 0 := by simpa using h
  refine ⟨?_, ?_, ?_, ?_, ?_, ?_, ?_⟩
  · simp [computeParams, avgOf, hlen]
  · simp [computeParams, INTENSITY_PER_AVG, MAX_INTENSITY]
  · simp [computeParams, SPEED_BASE, SPEED_SLOPE, MIN_SPEED]
  · simp [headlessParams, headlessAvg, jsDiv, computeParams, avgOf, hlen,
      INTENSITY_PER_AVG, MAX_INTENSITY, SPEED_BASE, SPEED_SLOPE, MIN_SPEED]
  · simp [computeParams, avgOf]
  · norm_num [computeParams, avgOf, INTENSITY_PER_AVG, MAX_INTENSITY, min_def]
  · norm_num [computeParams, avgOf, SPEED_BASE, SPEED_SLOPE, MIN_SPEED, max_def]

/-- C8 witness: the nonempty series [2] gives matching interactive and
headless parameters. -/
theorem computeParams_mapping_witness :
    ([2] : List ℚ) ≠ [] ∧
    headlessParams [2] =
      some ((computeParams [2]).intensity, (computeParams [2]).speed) :=
  ⟨by simp, (computeParams_mapping [2] (by simp)).2.2.2.1⟩

set_option maxHeartbeats 4000000 in
/-- C3 witness: a concrete recording run — 51 animation frames with
timestamps spaced exactly 100 ms apart — reaches encoder finalization,
and by the pipeline theorem it submitted exactly 50 frames. -/
theorem recording_50_frames_witness :
    (runRecording (exportTotalFrames 5 10) (frameDelayMs 10)
        [100, 200, 300, 400, 500, 600, 700, 800, 900, 1000, 1100, 1200, 1300, 1400, 1500, 1600, 1700, 1800, 1900, 2000, 2100, 2200, 2300, 2400, 2500, 2600, 2700, 2800, 2900, 3000, 3100, 3200, 3300, 3400, 3500, 3600, 3700, 3800, 3900, 4000, 4100, 4200, 4300, 4400, 4500, 4600, 4700, 4800, 4900, 5000, 5100]
        (initRecState 0 0)).finalized = true ∧
    (runRecording (exportTotalFrames 5 10) (frameDelayMs 10)
        [100, 200, 300, 400, 500, 600, 700, 800, 900, 1000, 1100, 1200, 1300, 1400, 1500, 1600, 1700, 1800, 1900, 2000, 2100, 2200, 2300, 2400, 2500, 2600, 2700, 2800, 2900, 3000, 3100, 3200, 3300, 3400, 3500, 3600, 3700, 3800, 3900, 4000, 4100, 4200, 4300, 4400, 4500, 4600, 4700, 4800, 4900, 5000, 5100]
        (initRecState 0 0)).submitted.length = 50 := by
  have h50 : exportTotalFrames 5 10 = 50 := by
    norm_num [exportTotalFrames, max_def]
  have hd : frameDelayMs 10 = 100 := by norm_num [frameDelayMs]
  have hfin : (runRecording (exportTotalFrames 5 10) (frameDelayMs 10)
      [100, 200, 300, 400, 500, 600, 700, 800, 900, 1000, 1100, 1200, 1300, 1400, 1500, 1600, 1700, 1800, 1900, 2000, 2100, 2200, 2300, 2400, 2500, 2600, 2700, 2800, 2900, 3000, 3100, 3200, 3300, 3400, 3500, 3600, 3700, 3800, 3900, 4000, 4100, 4200, 4300, 4400, 4500, 4600, 4700, 4800, 4900, 5000, 5100]
      (initRecState 0 0)).finalized = true := by
    rw [h50, hd]
    norm_num [runRecording, List.foldl, animFrame, renderTickStep, renderPhase,
      initRecState]
  exact ⟨hfin,
    (recording_50_frames
      [100, 200, 300, 400, 500, 600, 700, 800, 900, 1000, 1100, 1200, 1300, 1400, 1500, 1600, 1700, 1800, 1900, 2000, 2100, 2200, 2300, 2400, 2500, 2600, 2700, 2800, 2900, 3000, 3100, 3200, 3300, 3400, 3500, 3600, 3700, 3800, 3900, 4000, 4100, 4200, 4300, 4400, 4500, 4600, 4700, 4800, 4900, 5000, 5100] 0 0 hfin).1⟩

end ECG
